import Mathlib

set_option autoImplicit false
set_option linter.unusedVariables false

namespace SecureVote

/-!
Shallow embedding of the SecureVote passkey authentication core.

Sources embedded:
* the PasskeyAuthenticator class (checkPasskeySupport, registerPasskey,
  authenticateWithPasskey, hasPasskeyRegistered, removePasskey) backed by
  localStorage keys of the form passkey_userId;
* the login page handlers handleLogin and handlePasskeyAuth;
* the legacy BiometricAuthenticator (checkBiometricSupport,
  authenticateFingerprint, authenticateFaceId, performFullBiometricAuth).

Platform effects are modelled explicitly: localStorage is a map from keys to
records, crypto.getRandomValues is an entropy stream indexed by a per-world
counter, and each navigator.credentials ceremony is an oracle indexed by the
number of ceremonies invoked so far, with every invocation (and the exact
options passed to it) recorded in a log.  A platform exception is a JSError
value carrying the name and message fields that the TypeScript code dispatches
on; a ceremony can also resolve to a null credential, which the code turns
into a thrown Error that its own catch block then classifies.
-/

/-- Model of a JavaScript error object: the code dispatches on error.name and
error.message only. -/
structure JSError where
  name : String
  message : String
deriving Repr, DecidableEq

/-- Outcome of one navigator.credentials ceremony: a resolved credential, a
null credential, or a thrown error. -/
inductive CeremonyOutcome (α : Type) where
  | ok (v : α)
  | null
  | err (e : JSError)
deriving Repr, DecidableEq

/-- Opaque platform credential handle; the code only reads its id field. -/
structure PubKeyCredential where
  id : String
deriving Repr, DecidableEq

/-- Model of TextEncoder().encode: the UTF-8 bytes of a string. -/
def textEncode (s : String) : List UInt8 :=
  s.toUTF8.toList

/-- CredentialRecord: the JSON object stored in localStorage by
registerPasskey (stringify and parse are modelled as the identity on this
record type, since only this module writes the key). -/
structure CredentialRecord where
  id : String
  userEmail : String
  userId : String
  createdAt : String
deriving Repr, DecidableEq

/-- LocalCredentialIndex: localStorage restricted to this module, a map from
string keys to stored records. -/
def Store : Type := String → Option CredentialRecord

/-- Model of localStorage.setItem: overwrite the value at one key. -/
def storeSet (s : Store) (k : String) (v : CredentialRecord) : Store :=
  fun k' => if k' = k then some v else s k'

/-- Model of localStorage.removeItem: drop the value at one key. -/
def storeRemove (s : Store) (k : String) : Store :=
  fun k' => if k' = k then none else s k'

/-- Key used by the PasskeyAuthenticator for a given user id. -/
def storeKey (userId : String) : String :=
  "passkey_" ++ userId

/-- One entry of publicKeyCredentialCreationOptions.pubKeyCredParams. -/
structure PubKeyCredParam where
  alg : Int
  type : String
deriving Repr, DecidableEq

/-- The publicKeyCredentialCreationOptions record passed to
navigator.credentials.create by registerPasskey. -/
structure CreationOptions where
  challenge : List UInt8
  rpName : String
  rpId : String
  userIdBytes : List UInt8
  userName : String
  userDisplayName : String
  pubKeyCredParams : List PubKeyCredParam
  authenticatorAttachment : String
  userVerification : String
  residentKey : String
  timeout : Nat
  attestation : String
deriving Repr, DecidableEq

/-- One entry of allowCredentials in the assertion request. -/
structure AllowedCredentialDescriptor where
  type : String
  idBytes : List UInt8
  transports : List String
deriving Repr, DecidableEq

/-- The publicKeyCredentialRequestOptions record passed to
navigator.credentials.get by authenticateWithPasskey. -/
structure AssertionOptions where
  challenge : List UInt8
  allowCredentials : List AllowedCredentialDescriptor
  userVerification : String
  timeout : Nat
deriving Repr, DecidableEq

/-- Ambient platform environment for the PasskeyAuthenticator: the iframe
test, availability of window.PublicKeyCredential, the result of the
user-verifying-platform-authenticator query (which may itself throw), the
clock, the entropy stream behind crypto.getRandomValues, and the oracles
giving the outcome of the n-th create and get ceremonies. -/
structure PasskeyEnv where
  inIframe : Bool
  hasPublicKeyCredential : Bool
  uvpaQuery : Except JSError Bool
  now : String
  rng : Nat → List UInt8
  createOutcome : Nat → CeremonyOutcome PubKeyCredential
  getOutcome : Nat → CeremonyOutcome PubKeyCredential

/-- Mutable world threaded through the PasskeyAuthenticator operations: the
localStorage contents, the number of entropy draws made so far, and the log of
every create and get ceremony invocation with the options it was passed. -/
structure World where
  store : Store
  rngCtr : Nat
  createLog : List CreationOptions
  getLog : List AssertionOptions

/-- World before any operation has run: empty storage, no draws, no
ceremonies. -/
def initialWorld : World :=
  { store := fun _ => none, rngCtr := 0, createLog := [], getLog := [] }

/-- Result type of registerPasskey. -/
structure PasskeyRegistrationResult where
  success : Bool
  error : Option String
  credentialId : Option String
deriving Repr, DecidableEq

/-- Result type of authenticateWithPasskey. -/
structure PasskeyAuthResult where
  success : Bool
  error : Option String
  credential : Option PubKeyCredential
deriving Repr, DecidableEq

/-- checkPasskeySupport, translated clause by clause: false inside an iframe,
false when window.PublicKeyCredential is absent, otherwise the result of the
availability query, with a thrown query mapped to false by the catch block. -/
def checkPasskeySupport (env : PasskeyEnv) : Bool :=
  if env.inIframe then false
  else if !env.hasPublicKeyCredential then false
  else
    match env.uvpaQuery with
    | Except.ok b => b
    | Except.error _ => false

/-- Boolean test of the includes method on strings. -/
def strIncludes (s pat : String) : Bool :=
  decide (1 < (s.splitOn pat).length)

def msgRegEnvUnsupported : String :=
  "Passkey authentication is not supported in this environment. Please try opening the app in a new tab."

def msgRegDeviceUnsupported : String :=
  "Passkey authentication is not supported on this device"

def msgRegCancelled : String :=
  "Passkey registration was cancelled or denied. Please try again and allow the biometric authentication when prompted."

def msgRegAlreadyRegistered : String :=
  "A passkey is already registered for this account"

def msgRegEnvBlocked : String :=
  "Passkey authentication is not available in this environment. Please try opening the app in a new browser tab."

def msgRegGeneric : String :=
  "Failed to register passkey. Please try again or use a different device."

def msgAuthEnvUnsupported : String :=
  "Passkey authentication is not supported in this environment"

def msgAuthNoPasskey : String :=
  "No passkey found for this account. Please register a passkey first."

def msgAuthDeviceUnsupported : String :=
  "Passkey authentication is not supported on this device"

def msgAuthCancelled : String :=
  "Passkey authentication was cancelled or failed. Please try again."

def msgAuthNoValid : String :=
  "No valid passkey found for this account"

def msgAuthGeneric : String :=
  "Passkey authentication failed. Please try again."

/-- The closed set of user-facing messages the registerPasskey catch block
can produce. -/
def registerFailureMessages : List String :=
  [msgRegDeviceUnsupported, msgRegCancelled, msgRegAlreadyRegistered,
   msgRegEnvBlocked, msgRegGeneric]

/-- The closed set of user-facing messages the authenticateWithPasskey catch
block can produce. -/
def authFailureMessages : List String :=
  [msgAuthDeviceUnsupported, msgAuthCancelled, msgAuthNoValid, msgAuthGeneric]

/-- Catch block of registerPasskey: classify a thrown error by its name, then
by whether its message mentions publickey-credentials-create, then fall back
to the generic retry message. -/
def mapRegisterError (e : JSError) : PasskeyRegistrationResult :=
  if e.name = "NotSupportedError" then
    ⟨false, some msgRegDeviceUnsupported, none⟩
  else if e.name = "NotAllowedError" then
    ⟨false, some msgRegCancelled, none⟩
  else if e.name = "InvalidStateError" then
    ⟨false, some msgRegAlreadyRegistered, none⟩
  else if strIncludes e.message "publickey-credentials-create" then
    ⟨false, some msgRegEnvBlocked, none⟩
  else
    ⟨false, some msgRegGeneric, none⟩

/-- Catch block of authenticateWithPasskey: classify a thrown error by its
name, falling back to the generic retry message. -/
def mapAuthError (e : JSError) : PasskeyAuthResult :=
  if e.name = "NotSupportedError" then
    ⟨false, some msgAuthDeviceUnsupported, none⟩
  else if e.name = "NotAllowedError" then
    ⟨false, some msgAuthCancelled, none⟩
  else if e.name = "InvalidStateError" then
    ⟨false, some msgAuthNoValid, none⟩
  else
    ⟨false, some msgAuthGeneric, none⟩

/-- The fixed creation options built by registerPasskey for a fresh
challenge: SecureVote relying party on localhost, the encoded user id, both
ES256 and RS256, platform attachment, preferred user verification and
resident key, 60 second timeout, no attestation. -/
def registerCreationOptions (challenge : List UInt8) (userEmail userId : String) :
    CreationOptions :=
  { challenge := challenge
    rpName := "SecureVote"
    rpId := "localhost"
    userIdBytes := textEncode userId
    userName := userEmail
    userDisplayName := userEmail
    pubKeyCredParams := [⟨-7, "public-key"⟩, ⟨-257, "public-key"⟩]
    authenticatorAttachment := "platform"
    userVerification := "preferred"
    residentKey := "preferred"
    timeout := 60000
    attestation := "none" }

/-- registerPasskey: support probe, fresh challenge, create ceremony, and on
success a single localStorage write under the passkey_userId key; every other
path leaves the store untouched and returns a classified failure. -/
def registerPasskey (env : PasskeyEnv) (w : World) (userEmail userId : String) :
    PasskeyRegistrationResult × World :=
  if checkPasskeySupport env = false then
    (⟨false, some msgRegEnvUnsupported, none⟩, w)
  else
    let challenge := env.rng w.rngCtr
    let opts := registerCreationOptions challenge userEmail userId
    let w1 : World :=
      { w with rngCtr := w.rngCtr + 1, createLog := w.createLog ++ [opts] }
    match env.createOutcome w.createLog.length with
    | CeremonyOutcome.ok cred =>
        (⟨true, none, some cred.id⟩,
         { w1 with
             store := storeSet w1.store (storeKey userId)
               ⟨cred.id, userEmail, userId, env.now⟩ })
    | CeremonyOutcome.null =>
        (mapRegisterError ⟨"Error", "Failed to create passkey"⟩, w1)
    | CeremonyOutcome.err e => (mapRegisterError e, w1)

/-- The assertion request built by authenticateWithPasskey for a fresh
challenge and the stored credential id: a single allowed credential with
internal transport, preferred user verification, 60 second timeout. -/
def assertionOptions (challenge : List UInt8) (storedId : String) :
    AssertionOptions :=
  { challenge := challenge
    allowCredentials := [⟨"public-key", textEncode storedId, ["internal"]⟩]
    userVerification := "preferred"
    timeout := 60000 }

/-- authenticateWithPasskey: support probe, lookup of the stored record,
fresh challenge, get ceremony scoped to the stored credential id; the store
is never written. -/
def authenticateWithPasskey (env : PasskeyEnv) (w : World) (userEmail userId : String) :
    PasskeyAuthResult × World :=
  if checkPasskeySupport env = false then
    (⟨false, some msgAuthEnvUnsupported, none⟩, w)
  else
    match w.store (storeKey userId) with
    | none => (⟨false, some msgAuthNoPasskey, none⟩, w)
    | some credentialInfo =>
        let opts := assertionOptions (env.rng w.rngCtr) credentialInfo.id
        let w1 : World :=
          { w with rngCtr := w.rngCtr + 1, getLog := w.getLog ++ [opts] }
        match env.getOutcome w.getLog.length with
        | CeremonyOutcome.ok cred => (⟨true, none, some cred⟩, w1)
        | CeremonyOutcome.null =>
            (mapAuthError ⟨"Error", "Passkey authentication failed"⟩, w1)
        | CeremonyOutcome.err e => (mapAuthError e, w1)

/-- hasPasskeyRegistered: truthiness of localStorage.getItem on the
passkey_userId key. -/
def hasPasskeyRegistered (w : World) (userId : String) : Bool :=
  (w.store (storeKey userId)).isSome

/-- removePasskey: localStorage.removeItem on the passkey_userId key. -/
def removePasskey (w : World) (userId : String) : World :=
  { w with store := storeRemove w.store (storeKey userId) }

/-! ## Login page (Index): handleLogin and handlePasskeyAuth -/

/-- The user object returned by a successful signInWithPassword call. -/
structure SignInUser where
  id : String
  email : String

/-- Environment of one run of handleLogin: the form fields, the platform
environment seen by the passkey module, the result of the password sign-in
call, and the role read from the profiles table (an error models a failed
profile fetch). -/
structure LoginEnv where
  pkEnv : PasskeyEnv
  email : String
  password : String
  signIn : Except JSError SignInUser
  profileRole : Except JSError (Option String)

/-- Observable events of one handleLogin run, in order: the password sign-in
attempt and its outcome, entry into the handlePasskeyAuth step, each platform
assertion ceremony invoked inside it, and the final role-based navigation. -/
inductive LoginEvent where
  | passwordAttempt
  | passwordOk
  | passwordFailed
  | passkeyStepStarted
  | assertionCeremony
  | routed (dest : String)
deriving Repr, DecidableEq

/-- handlePasskeyAuth: skip with success inside an iframe, when support is
absent, or when no passkey is registered; otherwise run
authenticateWithPasskey and succeed exactly when it does.  Returns the
boolean the login flow branches on, the world after the call, and the events
of this step (entry plus one event per assertion ceremony actually invoked,
read off the ceremony log growth). -/
def handlePasskeyAuth (env : LoginEnv) (w : World) (userId userEmail : String) :
    Bool × World × List LoginEvent :=
  if env.pkEnv.inIframe then (true, w, [LoginEvent.passkeyStepStarted])
  else if checkPasskeySupport env.pkEnv = false then
    (true, w, [LoginEvent.passkeyStepStarted])
  else if hasPasskeyRegistered w userId = false then
    (true, w, [LoginEvent.passkeyStepStarted])
  else
    let res := authenticateWithPasskey env.pkEnv w userEmail userId
    let evs := LoginEvent.passkeyStepStarted ::
      ((res.2.getLog.drop w.getLog.length).map fun _ => LoginEvent.assertionCeremony)
    (res.1.success, res.2, evs)

/-- Destination of the role-based routing at the end of handleLogin: the
admin role goes to the admin dashboard, every other role, a missing role,
and a failed profile fetch all go to the voting dashboard. -/
def loginDest (env : LoginEnv) : String :=
  match env.profileRole with
  | Except.error _ => "/voting-dashboard"
  | Except.ok r => if r = some "admin" then "/admin-dashboard" else "/voting-dashboard"

/-- handleLogin: validate the form fields, call signInWithPassword, and only
when it returns without error run handlePasskeyAuth with the returned user;
role-based navigation happens exactly when that step reports success. -/
def handleLogin (env : LoginEnv) (w : World) : World × List LoginEvent :=
  if env.email.trim = "" ∨ env.password.trim = "" then (w, [])
  else
    match env.signIn with
    | Except.error _ => (w, [LoginEvent.passwordAttempt, LoginEvent.passwordFailed])
    | Except.ok user =>
        let step := handlePasskeyAuth env w user.id user.email
        let pre := LoginEvent.passwordAttempt :: LoginEvent.passwordOk :: step.2.2
        if step.1 then (step.2.1, pre ++ [LoginEvent.routed (loginDest env)])
        else (step.2.1, pre)

/-! ## Legacy BiometricAuthenticator -/

/-- Result type of the legacy biometric operations. -/
structure BiometricAuthResult where
  success : Bool
  error : Option String
  step : Option String
deriving Repr, DecidableEq

/-- Platform environment of the legacy BiometricAuthenticator: availability
of window.PublicKeyCredential, the availability query outcome, the create
ceremony outcome used by the fingerprint step, and whether getUserMedia
grants camera access in the face step. -/
structure BioEnv where
  hasPublicKeyCredential : Bool
  uvpaQuery : Except JSError Bool
  createOutcome : CeremonyOutcome PubKeyCredential
  mediaOk : Bool

/-- Invocation counters for the legacy biometric operations: entries into
each step and the external calls (create ceremony, camera acquisition) they
make. -/
structure BioWorld where
  fingerprintCalls : Nat
  faceIdCalls : Nat
  createCalls : Nat
  mediaCalls : Nat
deriving Repr, DecidableEq

/-- checkBiometricSupport: both flags are the availability query result when
window.PublicKeyCredential exists (false if the query throws), both false
otherwise. -/
def checkBiometricSupport (env : BioEnv) : Bool × Bool :=
  if env.hasPublicKeyCredential then
    match env.uvpaQuery with
    | Except.ok b => (b, b)
    | Except.error _ => (false, false)
  else (false, false)

/-- Catch block of authenticateFingerprint. -/
def mapFingerprintError (e : JSError) : BiometricAuthResult :=
  if e.name = "NotSupportedError" then
    ⟨false, some "System hardware not supported.", some "fingerprint"⟩
  else if e.name = "NotAllowedError" then
    ⟨false, some "Fingerprint authentication was cancelled or failed.", some "fingerprint"⟩
  else
    ⟨false, some "Fingerprint authentication failed. Please try again.", some "fingerprint"⟩

/-- authenticateFingerprint: support check, then one create ceremony whose
null result is rethrown as a generic Error and classified by the catch
block. -/
def authenticateFingerprint (env : BioEnv) (w : BioWorld) :
    BiometricAuthResult × BioWorld :=
  let w0 : BioWorld := { w with fingerprintCalls := w.fingerprintCalls + 1 }
  if (checkBiometricSupport env).1 = false then
    (⟨false, some "System hardware not supported.", some "fingerprint"⟩, w0)
  else
    let w1 : BioWorld := { w0 with createCalls := w0.createCalls + 1 }
    match env.createOutcome with
    | CeremonyOutcome.ok _ => (⟨true, none, some "fingerprint"⟩, w1)
    | CeremonyOutcome.null =>
        (mapFingerprintError ⟨"Error", "Fingerprint authentication failed"⟩, w1)
    | CeremonyOutcome.err e => (mapFingerprintError e, w1)

/-- authenticateFaceId: support check, then a camera acquisition via
getUserMedia; denial of camera access is caught by the inner catch block. -/
def authenticateFaceId (env : BioEnv) (w : BioWorld) :
    BiometricAuthResult × BioWorld :=
  let w0 : BioWorld := { w with faceIdCalls := w.faceIdCalls + 1 }
  if (checkBiometricSupport env).2 = false then
    (⟨false, some "System hardware not supported.", some "faceid"⟩, w0)
  else
    let w1 : BioWorld := { w0 with mediaCalls := w0.mediaCalls + 1 }
    if env.mediaOk then (⟨true, none, some "faceid"⟩, w1)
    else (⟨false, some "Camera access required for face recognition.", some "faceid"⟩, w1)

/-- performFullBiometricAuth: fingerprint step first, returned unchanged on
failure; then the face step, returned unchanged on failure; success with the
complete step marker only when both succeed. -/
def performFullBiometricAuth (env : BioEnv) (w : BioWorld) :
    BiometricAuthResult × BioWorld :=
  let fp := authenticateFingerprint env w
  if fp.1.success = false then fp
  else
    let face := authenticateFaceId env fp.2
    if face.1.success = false then face
    else (⟨true, none, some "complete"⟩, face.2)

/-! ## Concrete inputs used by witnesses and counterexamples -/

/-- Platform environment in which everything is supported and both ceremonies
resolve to a credential with id cred-1. -/
def envSupported : PasskeyEnv :=
  { inIframe := false
    hasPublicKeyCredential := true
    uvpaQuery := Except.ok true
    now := "t0"
    rng := fun _ => []
    createOutcome := fun _ => CeremonyOutcome.ok ⟨"cred-1"⟩
    getOutcome := fun _ => CeremonyOutcome.ok ⟨"cred-1"⟩ }

/-- Same platform but embedded in an iframe, so support is reported false. -/
def envIframe : PasskeyEnv :=
  { envSupported with inIframe := true }

/-- Supported platform in which both ceremonies throw NotAllowedError, the
class produced by user cancellation or denial. -/
def envCancelled : PasskeyEnv :=
  { envSupported with
      createOutcome := fun _ => CeremonyOutcome.err ⟨"NotAllowedError", ""⟩
      getOutcome := fun _ => CeremonyOutcome.err ⟨"NotAllowedError", ""⟩ }

/-- The record registered for user u1 in the witness scenarios. -/
def recU1 : CredentialRecord :=
  { id := "cred-1", userEmail := "a@x.com", userId := "u1", createdAt := "t0" }

/-- World in which exactly user u1 has a registered passkey. -/
def worldU1 : World :=
  { initialWorld with store := storeSet initialWorld.store (storeKey "u1") recU1 }

/-- Login environment: valid form fields, password accepted for user u1,
voter role, ceremonies cancelled by the user. -/
def loginEnvCancelled : LoginEnv :=
  { pkEnv := envCancelled
    email := "a@x.com"
    password := "pw"
    signIn := Except.ok { id := "u1", email := "a@x.com" }
    profileRole := Except.ok (some "voter") }

/-- Biometric environment in which all hardware checks and ceremonies
succeed. -/
def bioEnvOk : BioEnv :=
  { hasPublicKeyCredential := true
    uvpaQuery := Except.ok true
    createOutcome := CeremonyOutcome.ok ⟨"cred-1"⟩
    mediaOk := true }

/-- Biometric environment in which the fingerprint create ceremony is
cancelled. -/
def bioEnvFpCancelled : BioEnv :=
  { bioEnvOk with createOutcome := CeremonyOutcome.err ⟨"NotAllowedError", ""⟩ }

/-- Counter world before any biometric call. -/
def bioWorld0 : BioWorld :=
  { fingerprintCalls := 0, faceIdCalls := 0, createCalls := 0, mediaCalls := 0 }

/-! ## Helper lemmas -/

theorem mapRegisterError_success (e : JSError) : (mapRegisterError e).success = false := by
  unfold mapRegisterError
  repeat' split
  all_goals rfl

theorem mapAuthError_success (e : JSError) : (mapAuthError e).success = false := by
  unfold mapAuthError
  repeat' split
  all_goals rfl

theorem storeKey_inj {u v : String} (h : storeKey u = storeKey v) : u = v := by
  have hd : ("passkey_" ++ u).data = ("passkey_" ++ v).data := by
    rw [show storeKey u = "passkey_" ++ u from rfl,
        show storeKey v = "passkey_" ++ v from rfl] at h
    exact congrArg String.data h
  have hd' : "passkey_".data ++ u.data = "passkey_".data ++ v.data := hd
  have hdata : u.data = v.data := List.append_cancel_left hd'
  cases u; cases v; cases hdata; rfl

theorem registerPasskey_unsupported (env : PasskeyEnv) (w : World)
    (userEmail userId : String) (h : checkPasskeySupport env = false) :
    registerPasskey env w userEmail userId =
      (⟨false, some msgRegEnvUnsupported, none⟩, w) := by
  unfold registerPasskey
  simp [h]

theorem registerPasskey_ok (env : PasskeyEnv) (w : World)
    (userEmail userId : String) (cred : PubKeyCredential)
    (h : checkPasskeySupport env = true)
    (hc : env.createOutcome w.createLog.length = CeremonyOutcome.ok cred) :
    registerPasskey env w userEmail userId =
      (⟨true, none, some cred.id⟩,
       { store := storeSet w.store (storeKey userId)
           ⟨cred.id, userEmail, userId, env.now⟩
         rngCtr := w.rngCtr + 1
         createLog := w.createLog ++
           [registerCreationOptions (env.rng w.rngCtr) userEmail userId]
         getLog := w.getLog }) := by
  unfold registerPasskey
  simp [h, hc]

theorem registerPasskey_null (env : PasskeyEnv) (w : World)
    (userEmail userId : String)
    (h : checkPasskeySupport env = true)
    (hc : env.createOutcome w.createLog.length = CeremonyOutcome.null) :
    registerPasskey env w userEmail userId =
      (mapRegisterError ⟨"Error", "Failed to create passkey"⟩,
       { w with rngCtr := w.rngCtr + 1
                createLog := w.createLog ++
                  [registerCreationOptions (env.rng w.rngCtr) userEmail userId] }) := by
  unfold registerPasskey
  simp [h, hc]

theorem registerPasskey_err (env : PasskeyEnv) (w : World)
    (userEmail userId : String) (e : JSError)
    (h : checkPasskeySupport env = true)
    (hc : env.createOutcome w.createLog.length = CeremonyOutcome.err e) :
    registerPasskey env w userEmail userId =
      (mapRegisterError e,
       { w with rngCtr := w.rngCtr + 1
                createLog := w.createLog ++
                  [registerCreationOptions (env.rng w.rngCtr) userEmail userId] }) := by
  unfold registerPasskey
  simp [h, hc]

theorem authenticateWithPasskey_unsupported (env : PasskeyEnv) (w : World)
    (userEmail userId : String) (h : checkPasskeySupport env = false) :
    authenticateWithPasskey env w userEmail userId =
      (⟨false, some msgAuthEnvUnsupported, none⟩, w) := by
  unfold authenticateWithPasskey
  simp [h]

theorem authenticateWithPasskey_notFound (env : PasskeyEnv) (w : World)
    (userEmail userId : String)
    (h : checkPasskeySupport env = true)
    (hn : w.store (storeKey userId) = none) :
    authenticateWithPasskey env w userEmail userId =
      (⟨false, some msgAuthNoPasskey, none⟩, w) := by
  unfold authenticateWithPasskey
  simp [h, hn]

theorem authenticateWithPasskey_found_ok (env : PasskeyEnv) (w : World)
    (userEmail userId : String) (info : CredentialRecord) (cred : PubKeyCredential)
    (h : checkPasskeySupport env = true)
    (hs : w.store (storeKey userId) = some info)
    (hg : env.getOutcome w.getLog.length = CeremonyOutcome.ok cred) :
    authenticateWithPasskey env w userEmail userId =
      (⟨true, none, some cred⟩,
       { w with rngCtr := w.rngCtr + 1
                getLog := w.getLog ++ [assertionOptions (env.rng w.rngCtr) info.id] }) := by
  unfold authenticateWithPasskey
  simp [h, hs, hg]

theorem authenticateWithPasskey_found_null (env : PasskeyEnv) (w : World)
    (userEmail userId : String) (info : CredentialRecord)
    (h : checkPasskeySupport env = true)
    (hs : w.store (storeKey userId) = some info)
    (hg : env.getOutcome w.getLog.length = CeremonyOutcome.null) :
    authenticateWithPasskey env w userEmail userId =
      (mapAuthError ⟨"Error", "Passkey authentication failed"⟩,
       { w with rngCtr := w.rngCtr + 1
                getLog := w.getLog ++ [assertionOptions (env.rng w.rngCtr) info.id] }) := by
  unfold authenticateWithPasskey
  simp [h, hs, hg]

theorem authenticateWithPasskey_found_err (env : PasskeyEnv) (w : World)
    (userEmail userId : String) (info : CredentialRecord) (e : JSError)
    (h : checkPasskeySupport env = true)
    (hs : w.store (storeKey userId) = some info)
    (hg : env.getOutcome w.getLog.length = CeremonyOutcome.err e) :
    authenticateWithPasskey env w userEmail userId =
      (mapAuthError e,
       { w with rngCtr := w.rngCtr + 1
                getLog := w.getLog ++ [assertionOptions (env.rng w.rngCtr) info.id] }) := by
  unfold authenticateWithPasskey
  simp [h, hs, hg]

/-- Whatever the environment and outcome, authenticateWithPasskey maps the
store through unchanged. -/
theorem authenticateWithPasskey_store_eq (env : PasskeyEnv) (w : World)
    (userEmail userId : String) :
    (authenticateWithPasskey env w userEmail userId).2.store = w.store := by
  unfold authenticateWithPasskey
  split
  · rfl
  · split
    · rfl
    · split <;> rfl

/-- The world after a found-record authentication: the entropy counter
advances by one and the invoked ceremony is logged, whatever the outcome. -/
theorem authenticateWithPasskey_found_world (env : PasskeyEnv) (w : World)
    (userEmail userId : String) (info : CredentialRecord)
    (h : checkPasskeySupport env = true)
    (hs : w.store (storeKey userId) = some info) :
    (authenticateWithPasskey env w userEmail userId).2 =
      { w with rngCtr := w.rngCtr + 1
               getLog := w.getLog ++ [assertionOptions (env.rng w.rngCtr) info.id] } := by
  cases hg : env.getOutcome w.getLog.length with
  | ok cred =>
      rw [authenticateWithPasskey_found_ok env w userEmail userId info cred h hs hg]
  | null =>
      rw [authenticateWithPasskey_found_null env w userEmail userId info h hs hg]
  | err e =>
      rw [authenticateWithPasskey_found_err env w userEmail userId info e h hs hg]

/-- registerPasskey leaves every key other than its own untouched. -/
theorem registerPasskey_store_other (env : PasskeyEnv) (w : World)
    (userEmail userId : String) (k : String) (hk : k ≠ storeKey userId) :
    (registerPasskey env w userEmail userId).2.store k = w.store k := by
  by_cases hc : checkPasskeySupport env = false
  · rw [registerPasskey_unsupported env w userEmail userId hc]
  · have hc' : checkPasskeySupport env = true := by
      cases h : checkPasskeySupport env
      · exact absurd h hc
      · rfl
    cases ho : env.createOutcome w.createLog.length with
    | ok cred =>
        rw [registerPasskey_ok env w userEmail userId cred hc' ho]
        simp [storeSet, hk]
    | null => rw [registerPasskey_null env w userEmail userId hc' ho]
    | err e => rw [registerPasskey_err env w userEmail userId e hc' ho]

/-- Full classification of the registerPasskey catch block: success is
false, the message is one of the fixed user-facing strings, and each of the
three named platform error classes receives its own message. -/
theorem mapRegisterError_classified (e : JSError) :
    (mapRegisterError e).success = false ∧
    (mapRegisterError e).error.isSome = true ∧
    (mapRegisterError e).error.getD "" ∈ registerFailureMessages ∧
    (e.name = "NotSupportedError" →
      (mapRegisterError e).error = some msgRegDeviceUnsupported) ∧
    (e.name = "NotAllowedError" →
      (mapRegisterError e).error = some msgRegCancelled) ∧
    (e.name = "InvalidStateError" →
      (mapRegisterError e).error = some msgRegAlreadyRegistered) := by
  unfold mapRegisterError
  by_cases h1 : e.name = "NotSupportedError"
  · simp [h1, registerFailureMessages]
  · by_cases h2 : e.name = "NotAllowedError"
    · simp [h1, h2, registerFailureMessages]
    · by_cases h3 : e.name = "InvalidStateError"
      · simp [h1, h2, h3, registerFailureMessages]
      · by_cases h4 : strIncludes e.message "publickey-credentials-create" = true
        · simp [h1, h2, h3, h4, registerFailureMessages]
        · simp [h1, h2, h3, h4, registerFailureMessages]

/-- Full classification of the authenticateWithPasskey catch block. -/
theorem mapAuthError_classified (e : JSError) :
    (mapAuthError e).success = false ∧
    (mapAuthError e).error.isSome = true ∧
    (mapAuthError e).error.getD "" ∈ authFailureMessages ∧
    (e.name = "NotSupportedError" →
      (mapAuthError e).error = some msgAuthDeviceUnsupported) ∧
    (e.name = "NotAllowedError" →
      (mapAuthError e).error = some msgAuthCancelled) ∧
    (e.name = "InvalidStateError" →
      (mapAuthError e).error = some msgAuthNoValid) := by
  unfold mapAuthError
  by_cases h1 : e.name = "NotSupportedError"
  · simp [h1, authFailureMessages]
  · by_cases h2 : e.name = "NotAllowedError"
    · simp [h1, h2, authFailureMessages]
    · by_cases h3 : e.name = "InvalidStateError"
      · simp [h1, h2, h3, authFailureMessages]
      · simp [h1, h2, h3, authFailureMessages]

/-- The passkey step never emits a routing event: its trace is its entry
marker followed only by assertion-ceremony markers. -/
theorem handlePasskeyAuth_no_routed (env : LoginEnv) (w : World)
    (userId userEmail d : String) :
    LoginEvent.routed d ∉ (handlePasskeyAuth env w userId userEmail).2.2 := by
  unfold handlePasskeyAuth
  split
  · simp
  · split
    · simp
    · split
      · simp
      · simp

/-- handleLogin with a missing form field: no events at all. -/
theorem handleLogin_empty (env : LoginEnv) (w : World)
    (h : env.email.trim = "" ∨ env.password.trim = "") :
    handleLogin env w = (w, []) := by
  unfold handleLogin
  simp [h]

/-- handleLogin when the password sign-in returns an error: the run stops
after the failed password step. -/
theorem handleLogin_pwFailed (env : LoginEnv) (w : World) (e : JSError)
    (hne : ¬(env.email.trim = "" ∨ env.password.trim = ""))
    (hs : env.signIn = Except.error e) :
    handleLogin env w = (w, [LoginEvent.passwordAttempt, LoginEvent.passwordFailed]) := by
  unfold handleLogin
  simp [hne, hs]

/-- handleLogin when the password step succeeds but the passkey step reports
failure: no routing event is appended. -/
theorem handleLogin_pwOk_mfaFalse (env : LoginEnv) (w : World) (user : SignInUser)
    (hne : ¬(env.email.trim = "" ∨ env.password.trim = ""))
    (hs : env.signIn = Except.ok user)
    (hm : (handlePasskeyAuth env w user.id user.email).1 = false) :
    handleLogin env w =
      ((handlePasskeyAuth env w user.id user.email).2.1,
       LoginEvent.passwordAttempt :: LoginEvent.passwordOk ::
         (handlePasskeyAuth env w user.id user.email).2.2) := by
  unfold handleLogin
  simp [hne, hs, hm]

/-- handleLogin when both the password step and the passkey step report
success: the role-based routing event closes the trace. -/
theorem handleLogin_pwOk_mfaTrue (env : LoginEnv) (w : World) (user : SignInUser)
    (hne : ¬(env.email.trim = "" ∨ env.password.trim = ""))
    (hs : env.signIn = Except.ok user)
    (hm : (handlePasskeyAuth env w user.id user.email).1 = true) :
    handleLogin env w =
      ((handlePasskeyAuth env w user.id user.email).2.1,
       (LoginEvent.passwordAttempt :: LoginEvent.passwordOk ::
         (handlePasskeyAuth env w user.id user.email).2.2) ++
           [LoginEvent.routed (loginDest env)]) := by
  unfold handleLogin
  simp [hne, hs, hm]

/-- The fingerprint step never touches the face step entry counter. -/
theorem authenticateFingerprint_faceIdCalls (env : BioEnv) (w : BioWorld) :
    (authenticateFingerprint env w).2.faceIdCalls = w.faceIdCalls := by
  unfold authenticateFingerprint
  split
  · rfl
  · split <;> rfl

/-! ## Claim theorems -/

/-- C5: checkPasskeySupport is a total, state-free function of the ambient
context; it returns false immediately in an embedded (iframe) context, false
when the platform exposes no public-key-credential capability, otherwise
exactly the platform user-verifying-platform-authenticator boolean, and an
exception thrown by the capability query is caught and mapped to false,
never propagated. -/
theorem C5_checkPasskeySupport_spec (env : PasskeyEnv) :
    (env.inIframe = true → checkPasskeySupport env = false) ∧
    (env.inIframe = false → env.hasPublicKeyCredential = false →
      checkPasskeySupport env = false) ∧
    (∀ b : Bool, env.inIframe = false → env.hasPublicKeyCredential = true →
      env.uvpaQuery = Except.ok b → checkPasskeySupport env = b) ∧
    (∀ e : JSError, env.inIframe = false → env.hasPublicKeyCredential = true →
      env.uvpaQuery = Except.error e → checkPasskeySupport env = false) := by
  refine ⟨?_, ?_, ?_, ?_⟩
  · intro h; simp [checkPasskeySupport, h]
  · intro h1 h2; simp [checkPasskeySupport, h1, h2]
  · intro b h1 h2 h3; simp [checkPasskeySupport, h1, h2, h3]
  · intro e h1 h2 h3; simp [checkPasskeySupport, h1, h2, h3]

/-- Witness for C5 at concrete environments: the iframe context is refused
and the fully supported context reports the platform boolean. -/
theorem C5_checkPasskeySupport_spec_witness :
    checkPasskeySupport envIframe = false ∧ checkPasskeySupport envSupported = true :=
  ⟨(C5_checkPasskeySupport_spec envIframe).1 rfl,
   (C5_checkPasskeySupport_spec envSupported).2.2.1 true rfl rfl rfl⟩

/-- C2: registerPasskey is atomic with respect to the local credential
index: on success exactly one record is written under the callers key
(overwriting any prior record there) and the new credential id is returned,
while every failure outcome leaves every key of the index untouched; in
particular nothing is written when the support probe reports unsupported or
when the creation ceremony throws. -/
theorem C2_registerPasskey_atomic (env : PasskeyEnv) (w : World)
    (userEmail userId : String) :
    ((registerPasskey env w userEmail userId).1.success = false →
      ∀ k, (registerPasskey env w userEmail userId).2.store k = w.store k) ∧
    ((registerPasskey env w userEmail userId).1.success = true →
      ((registerPasskey env w userEmail userId).1.credentialId.isSome = true ∧
       (registerPasskey env w userEmail userId).2.store (storeKey userId) =
         some ⟨(registerPasskey env w userEmail userId).1.credentialId.getD "",
               userEmail, userId, env.now⟩ ∧
       ∀ k, k ≠ storeKey userId →
         (registerPasskey env w userEmail userId).2.store k = w.store k)) ∧
    (checkPasskeySupport env = false →
      ((registerPasskey env w userEmail userId).1.success = false ∧
       ∀ k, (registerPasskey env w userEmail userId).2.store k = w.store k)) ∧
    (∀ e : JSError, checkPasskeySupport env = true →
      env.createOutcome w.createLog.length = CeremonyOutcome.err e →
      ((registerPasskey env w userEmail userId).1.success = false ∧
       ∀ k, (registerPasskey env w userEmail userId).2.store k = w.store k)) := by
  by_cases hc : checkPasskeySupport env = false
  · rw [registerPasskey_unsupported env w userEmail userId hc]
    refine ⟨?_, ?_, ?_, ?_⟩
    · intro _ k; rfl
    · intro h; simp at h
    · intro _; exact ⟨rfl, fun k => rfl⟩
    · intro e hT _
      rw [hT] at hc
      cases hc
  · have hc' : checkPasskeySupport env = true := by
      cases h : checkPasskeySupport env
      · exact absurd h hc
      · rfl
    cases ho : env.createOutcome w.createLog.length with
    | ok cred =>
        rw [registerPasskey_ok env w userEmail userId cred hc' ho]
        refine ⟨?_, ?_, ?_, ?_⟩
        · intro h; simp at h
        · intro _
          refine ⟨rfl, ?_, ?_⟩
          · simp [storeSet]
          · intro k hk; simp [storeSet, hk]
        · intro h
          rw [hc'] at h
          cases h
        · intro e _ he
          cases he
    | null =>
        rw [registerPasskey_null env w userEmail userId hc' ho]
        refine ⟨?_, ?_, ?_, ?_⟩
        · intro _ k; rfl
        · intro h
          rw [mapRegisterError_success] at h
          cases h
        · intro h
          rw [hc'] at h
          cases h
        · intro e _ he
          cases he
    | err e =>
        rw [registerPasskey_err env w userEmail userId e hc' ho]
        refine ⟨?_, ?_, ?_, ?_⟩
        · intro _ k; rfl
        · intro h
          rw [mapRegisterError_success] at h
          cases h
        · intro h
          rw [hc'] at h
          cases h
        · intro e' _ _
          exact ⟨mapRegisterError_success e, fun k => rfl⟩

/-- Witness for C2 on a successful registration: the record is written under
the u1 key and an unrelated key is untouched. -/
theorem C2_registerPasskey_atomic_witness :
    (registerPasskey envSupported initialWorld "a@x.com" "u1").1.success = true ∧
    (registerPasskey envSupported initialWorld "a@x.com" "u1").2.store (storeKey "u1") =
      some ⟨"cred-1", "a@x.com", "u1", "t0"⟩ ∧
    (registerPasskey envSupported initialWorld "a@x.com" "u1").2.store (storeKey "u2") =
      initialWorld.store (storeKey "u2") := by
  have h := (C2_registerPasskey_atomic envSupported initialWorld "a@x.com" "u1").2.1
    (by decide)
  refine ⟨by decide, ?_, h.2.2 (storeKey "u2") (by decide)⟩
  simpa using h.2.1

/-- C3: store round trip: before any registration has takes place no user id
reports a passkey; after a successful register the user id reports one;
after remove it reports none again; and remove is idempotent, so removing a
key that is absent is not an error and changes nothing. -/
theorem C3_store_roundtrip (env : PasskeyEnv) (w : World)
    (userEmail userId : String) :
    hasPasskeyRegistered initialWorld userId = false ∧
    ((registerPasskey env w userEmail userId).1.success = true →
      hasPasskeyRegistered (registerPasskey env w userEmail userId).2 userId = true) ∧
    hasPasskeyRegistered (removePasskey w userId) userId = false ∧
    (∀ k, (removePasskey (removePasskey w userId) userId).store k =
      (removePasskey w userId).store k) ∧
    (hasPasskeyRegistered w userId = false →
      ∀ k, (removePasskey w userId).store k = w.store k) := by
  refine ⟨rfl, ?_, ?_, ?_, ?_⟩
  · intro hs
    by_cases hc : checkPasskeySupport env = false
    · rw [registerPasskey_unsupported env w userEmail userId hc] at hs
      simp at hs
    · have hc' : checkPasskeySupport env = true := by
        cases h : checkPasskeySupport env
        · exact absurd h hc
        · rfl
      cases ho : env.createOutcome w.createLog.length with
      | ok cred =>
          rw [registerPasskey_ok env w userEmail userId cred hc' ho]
          simp [hasPasskeyRegistered, storeSet]
      | null =>
          rw [registerPasskey_null env w userEmail userId hc' ho] at hs
          rw [mapRegisterError_success] at hs
          cases hs
      | err e =>
          rw [registerPasskey_err env w userEmail userId e hc' ho] at hs
          rw [mapRegisterError_success] at hs
          cases hs
  · simp [hasPasskeyRegistered, removePasskey, storeRemove]
  · intro k
    simp only [removePasskey, storeRemove]
    split <;> rfl
  · intro h k
    simp only [removePasskey, storeRemove]
    split
    · next hk =>
        subst hk
        simp only [hasPasskeyRegistered] at h
        cases hw : w.store (storeKey userId)
        · rfl
        · rw [hw] at h
          cases h
    · rfl

/-- C4 counterexample: the claim quantifies over every environment, but in
an embedded (iframe) context with no stored record authenticateWithPasskey
returns the unsupported-environment classification, not the register-first
classification the claim asserts (the assertion ceremony is still never
invoked). -/
theorem C4_authenticate_unregistered_counterexample :
    hasPasskeyRegistered initialWorld "u1" = false ∧
    (authenticateWithPasskey envIframe initialWorld "a@x.com" "u1").1.success = false ∧
    (authenticateWithPasskey envIframe initialWorld "a@x.com" "u1").1.error =
      some msgAuthEnvUnsupported ∧
    msgAuthEnvUnsupported ≠ msgAuthNoPasskey := by
  refine ⟨rfl, rfl, rfl, ?_⟩
  decide

/-- C4 (amended): when no credential record is stored for the user id,
authenticateWithPasskey fails and never invokes the platform assertion
ceremony (the ceremony log does not grow); when additionally the support
probe passes, the failure carries the register-first classification. -/
theorem C4_authenticate_unregistered (env : PasskeyEnv) (w : World)
    (userEmail userId : String)
    (hnone : hasPasskeyRegistered w userId = false) :
    (authenticateWithPasskey env w userEmail userId).1.success = false ∧
    (authenticateWithPasskey env w userEmail userId).2.getLog = w.getLog ∧
    (checkPasskeySupport env = true →
      (authenticateWithPasskey env w userEmail userId).1.error = some msgAuthNoPasskey) := by
  have hn : w.store (storeKey userId) = none := by
    simp only [hasPasskeyRegistered] at hnone
    cases hw : w.store (storeKey userId)
    · rfl
    · rw [hw] at hnone
      cases hnone
  by_cases hc : checkPasskeySupport env = false
  · rw [authenticateWithPasskey_unsupported env w userEmail userId hc]
    refine ⟨rfl, rfl, ?_⟩
    intro h
    rw [h] at hc
    cases hc
  · have hc' : checkPasskeySupport env = true := by
      cases h : checkPasskeySupport env
      · exact absurd h hc
      · rfl
    rw [authenticateWithPasskey_notFound env w userEmail userId hc' hn]
    exact ⟨rfl, rfl, fun _ => rfl⟩

/-- Witness for C4 (amended): a supported environment with an empty index
yields the register-first failure and no ceremony. -/
theorem C4_authenticate_unregistered_witness :
    (authenticateWithPasskey envSupported initialWorld "a@x.com" "u1").1.success = false ∧
    (authenticateWithPasskey envSupported initialWorld "a@x.com" "u1").2.getLog =
      initialWorld.getLog ∧
    (authenticateWithPasskey envSupported initialWorld "a@x.com" "u1").1.error =
      some msgAuthNoPasskey := by
  have h := C4_authenticate_unregistered envSupported initialWorld "a@x.com" "u1" (by decide)
  exact ⟨h.1, h.2.1, h.2.2 rfl⟩

/-- C6: every platform exception thrown by a ceremony inside registerPasskey
or authenticateWithPasskey is caught at the operation boundary and
reclassified as a success-false result whose message belongs to a fixed,
duplicate-free list of user-facing strings (so raw platform error text is
never returned and each error class has its own distinct message), with
UnsupportedEnvironment, CeremonyCancelledOrDenied and InvalidCredentialState
each mapped to their dedicated message and everything else to the generic
transient one; both operations are total functions, so no throw escapes. -/
theorem C6_error_taxonomy (env : PasskeyEnv) (w : World)
    (userEmail userId : String) (e : JSError) :
    (checkPasskeySupport env = true →
      env.createOutcome w.createLog.length = CeremonyOutcome.err e →
      ((registerPasskey env w userEmail userId).1.success = false ∧
       (registerPasskey env w userEmail userId).1.error.isSome = true ∧
       (registerPasskey env w userEmail userId).1.error.getD "" ∈ registerFailureMessages ∧
       (e.name = "NotSupportedError" →
         (registerPasskey env w userEmail userId).1.error = some msgRegDeviceUnsupported) ∧
       (e.name = "NotAllowedError" →
         (registerPasskey env w userEmail userId).1.error = some msgRegCancelled) ∧
       (e.name = "InvalidStateError" →
         (registerPasskey env w userEmail userId).1.error = some msgRegAlreadyRegistered))) ∧
    (∀ info : CredentialRecord, checkPasskeySupport env = true →
      w.store (storeKey userId) = some info →
      env.getOutcome w.getLog.length = CeremonyOutcome.err e →
      ((authenticateWithPasskey env w userEmail userId).1.success = false ∧
       (authenticateWithPasskey env w userEmail userId).1.error.isSome = true ∧
       (authenticateWithPasskey env w userEmail userId).1.error.getD "" ∈ authFailureMessages ∧
       (e.name = "NotSupportedError" →
         (authenticateWithPasskey env w userEmail userId).1.error =
           some msgAuthDeviceUnsupported) ∧
       (e.name = "NotAllowedError" →
         (authenticateWithPasskey env w userEmail userId).1.error = some msgAuthCancelled) ∧
       (e.name = "InvalidStateError" →
         (authenticateWithPasskey env w userEmail userId).1.error = some msgAuthNoValid))) ∧
    registerFailureMessages.Nodup ∧
    authFailureMessages.Nodup := by
  refine ⟨?_, ?_, by decide, by decide⟩
  · intro hc ho
    rw [registerPasskey_err env w userEmail userId e hc ho]
    exact mapRegisterError_classified e
  · intro info hc hs hg
    rw [authenticateWithPasskey_found_err env w userEmail userId info e hc hs hg]
    exact mapAuthError_classified e

/-- Witness for C6: a NotAllowedError thrown by either ceremony surfaces as
the dedicated cancellation message. -/
theorem C6_error_taxonomy_witness :
    (registerPasskey envCancelled initialWorld "a@x.com" "u1").1.success = false ∧
    (registerPasskey envCancelled initialWorld "a@x.com" "u1").1.error =
      some msgRegCancelled ∧
    (authenticateWithPasskey envCancelled worldU1 "a@x.com" "u1").1.success = false ∧
    (authenticateWithPasskey envCancelled worldU1 "a@x.com" "u1").1.error =
      some msgAuthCancelled := by
  have h1 := (C6_error_taxonomy envCancelled initialWorld "a@x.com" "u1"
    ⟨"NotAllowedError", ""⟩).1 (by decide) rfl
  have h2 := (C6_error_taxonomy envCancelled worldU1 "a@x.com" "u1"
    ⟨"NotAllowedError", ""⟩).2.1 recU1 (by decide) (by decide) rfl
  exact ⟨h1.1, h1.2.2.2.2.1 rfl, h2.1, h2.2.2.2.2.1 rfl⟩

/-- C7: with a record stored for the user id, authenticateWithPasskey
invokes the platform assertion ceremony exactly once, scoped to exactly the
stored credential id: the allowed-credential list is the single entry whose
id is the encoded stored id with transport internal, the user-verification
policy equals the one registerPasskey uses, and the timeout is 60000 ms. -/
theorem C7_assertion_scoped (env : PasskeyEnv) (w : World)
    (userEmail userId : String) (info : CredentialRecord)
    (hsup : checkPasskeySupport env = true)
    (hstored : w.store (storeKey userId) = some info) :
    (authenticateWithPasskey env w userEmail userId).2.getLog =
      w.getLog ++ [assertionOptions (env.rng w.rngCtr) info.id] ∧
    (assertionOptions (env.rng w.rngCtr) info.id).allowCredentials =
      [⟨"public-key", textEncode info.id, ["internal"]⟩] ∧
    (assertionOptions (env.rng w.rngCtr) info.id).userVerification =
      (registerCreationOptions (env.rng w.rngCtr) userEmail userId).userVerification ∧
    (assertionOptions (env.rng w.rngCtr) info.id).timeout = 60000 := by
  refine ⟨?_, rfl, rfl, rfl⟩
  rw [authenticateWithPasskey_found_world env w userEmail userId info hsup hstored]

/-- Witness for C7 at the u1 world: one logged ceremony scoped to cred-1. -/
theorem C7_assertion_scoped_witness :
    (authenticateWithPasskey envSupported worldU1 "a@x.com" "u1").2.getLog =
      worldU1.getLog ++ [assertionOptions (envSupported.rng worldU1.rngCtr) recU1.id] ∧
    (assertionOptions (envSupported.rng worldU1.rngCtr) recU1.id).timeout = 60000 := by
  have h := C7_assertion_scoped envSupported worldU1 "a@x.com" "u1" recU1
    (by decide) (by decide)
  exact ⟨h.1, h.2.2.2⟩

/-- C8: authenticateWithPasskey never mutates the credential index — the
store is identical before and after the call for every outcome — and each
call that reaches the ceremony triggers a fresh one with a freshly drawn
challenge: the logged invocation carries the draw at the current entropy
counter, the counter advances, and an immediately repeated call logs a new
ceremony carrying the next draw. -/
theorem C8_authenticate_frame (env : PasskeyEnv) (w : World)
    (userEmail userId : String) :
    (∀ k, (authenticateWithPasskey env w userEmail userId).2.store k = w.store k) ∧
    (∀ info : CredentialRecord, checkPasskeySupport env = true →
      w.store (storeKey userId) = some info →
      ((authenticateWithPasskey env w userEmail userId).2.getLog =
         w.getLog ++ [assertionOptions (env.rng w.rngCtr) info.id] ∧
       (assertionOptions (env.rng w.rngCtr) info.id).challenge = env.rng w.rngCtr ∧
       (authenticateWithPasskey env w userEmail userId).2.rngCtr = w.rngCtr + 1 ∧
       (authenticateWithPasskey env (authenticateWithPasskey env w userEmail userId).2
           userEmail userId).2.getLog =
         (authenticateWithPasskey env w userEmail userId).2.getLog ++
           [assertionOptions (env.rng (w.rngCtr + 1)) info.id])) := by
  constructor
  · intro k
    rw [authenticateWithPasskey_store_eq]
  · intro info hsup hstored
    have hW := authenticateWithPasskey_found_world env w userEmail userId info hsup hstored
    refine ⟨by rw [hW], rfl, by rw [hW], ?_⟩
    rw [hW]
    have hs2 : (⟨w.store, w.rngCtr + 1, w.createLog,
        w.getLog ++ [assertionOptions (env.rng w.rngCtr) info.id]⟩ : World).store
          (storeKey userId) = some info := hstored
    exact congrArg World.getLog
      (authenticateWithPasskey_found_world env _ userEmail userId info hsup hs2)

/-- Witness for C8: authenticating in the u1 world leaves the u1 record in
place and advances the entropy counter by one. -/
theorem C8_authenticate_frame_witness :
    (authenticateWithPasskey envSupported worldU1 "a@x.com" "u1").2.store (storeKey "u1") =
      worldU1.store (storeKey "u1") ∧
    (authenticateWithPasskey envSupported worldU1 "a@x.com" "u1").2.rngCtr =
      worldU1.rngCtr + 1 := by
  have h := C8_authenticate_frame envSupported worldU1 "a@x.com" "u1"
  exact ⟨h.1 (storeKey "u1"), (h.2 recU1 (by decide) (by decide)).2.2.1⟩

/-- C9: per-key isolation of the credential index: for distinct user ids u
and v, registering, removing, or authenticating for u changes neither the
record stored for v nor the has-passkey answer for v. -/
theorem C9_per_key_isolation (env : PasskeyEnv) (w : World)
    (userEmail : String) (u v : String) (huv : u ≠ v) :
    ((registerPasskey env w userEmail u).2.store (storeKey v) = w.store (storeKey v)) ∧
    ((removePasskey w u).store (storeKey v) = w.store (storeKey v)) ∧
    ((authenticateWithPasskey env w userEmail u).2.store (storeKey v) =
      w.store (storeKey v)) ∧
    (hasPasskeyRegistered (registerPasskey env w userEmail u).2 v =
      hasPasskeyRegistered w v) ∧
    (hasPasskeyRegistered (removePasskey w u) v = hasPasskeyRegistered w v) ∧
    (hasPasskeyRegistered (authenticateWithPasskey env w userEmail u).2 v =
      hasPasskeyRegistered w v) := by
  have hkey : storeKey v ≠ storeKey u := fun h => huv (storeKey_inj h).symm
  have hreg : (registerPasskey env w userEmail u).2.store (storeKey v) =
      w.store (storeKey v) :=
    registerPasskey_store_other env w userEmail u (storeKey v) hkey
  have hrem : (removePasskey w u).store (storeKey v) = w.store (storeKey v) := by
    simp [removePasskey, storeRemove, hkey]
  have hauth : (authenticateWithPasskey env w userEmail u).2.store (storeKey v) =
      w.store (storeKey v) := by
    rw [authenticateWithPasskey_store_eq]
  refine ⟨hreg, hrem, hauth, ?_, ?_, ?_⟩
  · simp [hasPasskeyRegistered, hreg]
  · simp [hasPasskeyRegistered, hrem]
  · simp [hasPasskeyRegistered, hauth]

/-- Witness for C9 with u1 and u2 in the u1 world: the u2 slot is untouched
by a u1 registration and the u1 record survives a u2 removal. -/
theorem C9_per_key_isolation_witness :
    (registerPasskey envSupported worldU1 "a@x.com" "u1").2.store (storeKey "u2") =
      worldU1.store (storeKey "u2") ∧
    hasPasskeyRegistered (removePasskey worldU1 "u2") "u1" =
      hasPasskeyRegistered worldU1 "u1" := by
  have h1 := C9_per_key_isolation envSupported worldU1 "a@x.com" "u1" "u2" (by decide)
  have h2 := C9_per_key_isolation envSupported worldU1 "a@x.com" "u2" "u1" (by decide)
  exact ⟨h1.1, h2.2.2.2.2.1⟩

/-- Witness for C3: the concrete round trip for user u1. -/
theorem C3_store_roundtrip_witness :
    hasPasskeyRegistered initialWorld "u1" = false ∧
    hasPasskeyRegistered (registerPasskey envSupported initialWorld "a@x.com" "u1").2 "u1"
      = true ∧
    hasPasskeyRegistered (removePasskey worldU1 "u1") "u1" = false := by
  have h := C3_store_roundtrip envSupported initialWorld "a@x.com" "u1"
  have h2 := C3_store_roundtrip envSupported worldU1 "a@x.com" "u1"
  exact ⟨h.1, h.2.1 (by decide), h2.2.2.1⟩

/-- C1: in every run of handleLogin the second-factor step starts only after
the password sign-in returned without error — whenever the passkey step
marker appears in the trace, the sign-in succeeded and the trace begins with
the password attempt followed by its success; whenever the second-factor
step does not report success, no role-based routing event occurs; and a
failed password sign-in routes nowhere and never starts the passkey step. -/
theorem C1_login_order (env : LoginEnv) (w : World) :
    (LoginEvent.passkeyStepStarted ∈ (handleLogin env w).2 →
      (env.signIn.isOk = true ∧
       (handleLogin env w).2.take 2 =
         [LoginEvent.passwordAttempt, LoginEvent.passwordOk])) ∧
    (∀ u : SignInUser, env.signIn = Except.ok u →
      (handlePasskeyAuth env w u.id u.email).1 = false →
      ∀ d, LoginEvent.routed d ∉ (handleLogin env w).2) ∧
    (∀ e : JSError, env.signIn = Except.error e →
      ((∀ d, LoginEvent.routed d ∉ (handleLogin env w).2) ∧
       LoginEvent.passkeyStepStarted ∉ (handleLogin env w).2)) := by
  by_cases hne : env.email.trim = "" ∨ env.password.trim = ""
  · rw [handleLogin_empty env w hne]
    refine ⟨?_, ?_, ?_⟩
    · intro hmem
      simp at hmem
    · intro u _ _ d
      simp
    · intro e _
      exact ⟨fun d => by simp, by simp⟩
  · cases hs : env.signIn with
    | error e =>
        rw [handleLogin_pwFailed env w e hne hs]
        refine ⟨?_, ?_, ?_⟩
        · intro hmem
          simp at hmem
        · intro u hu
          cases hu
        · intro e' _
          constructor
          · intro d
            simp
          · simp
    | ok user =>
        cases hm : (handlePasskeyAuth env w user.id user.email).1 with
        | false =>
            rw [handleLogin_pwOk_mfaFalse env w user hne hs hm]
            refine ⟨?_, ?_, ?_⟩
            · intro _
              exact ⟨rfl, rfl⟩
            · intro u hu _ d
              cases hu
              intro hmem
              simp only [List.mem_cons] at hmem
              rcases hmem with h | h | h
              · cases h
              · cases h
              · exact handlePasskeyAuth_no_routed env w user.id user.email d h
            · intro e' he
              cases he
        | true =>
            rw [handleLogin_pwOk_mfaTrue env w user hne hs hm]
            refine ⟨?_, ?_, ?_⟩
            · intro _
              exact ⟨rfl, rfl⟩
            · intro u hu hf
              cases hu
              exact absurd hf (by rw [hm]; simp)
            · intro e' he
              cases he

/-- Witness for C1: with the password accepted for u1 but the assertion
ceremony cancelled, the passkey step reports failure and the run emits no
routing event to the voting dashboard. -/
theorem C1_login_order_witness :
    (handlePasskeyAuth loginEnvCancelled worldU1 "u1" "a@x.com").1 = false ∧
    LoginEvent.routed "/voting-dashboard" ∉ (handleLogin loginEnvCancelled worldU1).2 := by
  refine ⟨by decide, ?_⟩
  exact (C1_login_order loginEnvCancelled worldU1).2.1 ⟨"u1", "a@x.com"⟩ rfl (by decide)
    "/voting-dashboard"

/-- C10: performFullBiometricAuth returns success with the complete step
marker exactly when the fingerprint step succeeds and then the face step
succeeds, in that order; a fingerprint failure is returned unchanged and the
face step is never entered (its entry counter stays put); a face failure
after a successful fingerprint step is returned unchanged. -/
theorem C10_performFullBiometricAuth_spec (env : BioEnv) (w : BioWorld) :
    ((authenticateFingerprint env w).1.success = false →
      (performFullBiometricAuth env w = authenticateFingerprint env w ∧
       (performFullBiometricAuth env w).2.faceIdCalls = w.faceIdCalls)) ∧
    ((authenticateFingerprint env w).1.success = true →
      (authenticateFaceId env (authenticateFingerprint env w).2).1.success = false →
      performFullBiometricAuth env w =
        authenticateFaceId env (authenticateFingerprint env w).2) ∧
    ((authenticateFingerprint env w).1.success = true →
      (authenticateFaceId env (authenticateFingerprint env w).2).1.success = true →
      performFullBiometricAuth env w =
        (⟨true, none, some "complete"⟩,
         (authenticateFaceId env (authenticateFingerprint env w).2).2)) ∧
    ((performFullBiometricAuth env w).1.success = true ↔
      ((authenticateFingerprint env w).1.success = true ∧
       (authenticateFaceId env (authenticateFingerprint env w).2).1.success = true)) := by
  cases hf : (authenticateFingerprint env w).1.success with
  | false =>
      have hPerf : performFullBiometricAuth env w = authenticateFingerprint env w := by
        unfold performFullBiometricAuth
        simp [hf]
      refine ⟨?_, ?_, ?_, ?_⟩
      · intro _
        refine ⟨hPerf, ?_⟩
        rw [hPerf]
        exact authenticateFingerprint_faceIdCalls env w
      · intro h
        cases h
      · intro h
        cases h
      · simp [hPerf, hf]
  | true =>
      cases hg : (authenticateFaceId env (authenticateFingerprint env w).2).1.success with
      | false =>
          have hPerf : performFullBiometricAuth env w =
              authenticateFaceId env (authenticateFingerprint env w).2 := by
            unfold performFullBiometricAuth
            simp [hf, hg]
          refine ⟨?_, ?_, ?_, ?_⟩
          · intro h
            cases h
          · intro _ _
            exact hPerf
          · intro _ h
            cases h
          · simp [hPerf, hf, hg]
      | true =>
          have hPerf : performFullBiometricAuth env w =
              (⟨true, none, some "complete"⟩,
               (authenticateFaceId env (authenticateFingerprint env w).2).2) := by
            unfold performFullBiometricAuth
            simp [hf, hg]
          refine ⟨?_, ?_, ?_, ?_⟩
          · intro h
            cases h
          · intro _ h
            cases h
          · intro _ _
            exact hPerf
          · simp [hPerf, hf, hg]

/-- Witness for C10: a cancelled fingerprint ceremony is returned unchanged
with the face step never entered, and the all-good environment completes. -/
theorem C10_performFullBiometricAuth_spec_witness :
    performFullBiometricAuth bioEnvFpCancelled bioWorld0 =
      authenticateFingerprint bioEnvFpCancelled bioWorld0 ∧
    (performFullBiometricAuth bioEnvFpCancelled bioWorld0).2.faceIdCalls = 0 ∧
    (performFullBiometricAuth bioEnvOk bioWorld0).1.success = true := by
  have h1 := (C10_performFullBiometricAuth_spec bioEnvFpCancelled bioWorld0).1 (by decide)
  have h2 := (C10_performFullBiometricAuth_spec bioEnvOk bioWorld0).2.2.2
  exact ⟨h1.1, h1.2, h2.mpr ⟨by decide, by decide⟩⟩

end SecureVote
